import Mathlib

/-!
# Verification of the Tado CE integration against its specification

Shallow embedding of the parts of the integration the claims concern:

* `custom_components/tado_ce/__init__.py` — `is_daytime`, `get_polling_interval`,
  the `POLLING_INTERVALS` table, and the shared `HH:MM:SS` time-period parser of
  `handle_set_climate_timer` / `handle_set_water_heater_timer` (the two parsing
  blocks are textually identical; they are embedded once).
* `custom_components/tado_ce/config_manager.py` — `sync_all_to_config_json`.
* `custom_components/tado_ce/async_api.py` — `_detect_call_type`, the tracking
  decision of `TadoAsyncClient.api_call`, and `TadoAsyncClient.save_ratelimit`.
* `custom_components/tado_ce/water_heater.py` — `TadoWaterHeater.update`.
* `custom_components/tado_ce/immediate_refresh_handler.py` —
  `_get_backoff_interval` and the failure-counter updates of `trigger_refresh`.
* `custom_components/tado_ce/calendar.py` — `TadoScheduleCalendar._block_to_event`.

Python dictionaries are modelled as insertion-ordered association lists, JSON
values by a small inductive `JVal`, timestamps by integer seconds, and raised
exceptions by `Except`/`Option` results.
-/

/-! ## JSON values and Python-dict operations -/

/-- A JSON scalar value as handled by the configuration files.  `null` is JSON
`null` (Python `None`); booleans, integers and strings cover every value the
configuration getters produce. -/
inductive JVal where
  | null
  | jbool (b : Bool)
  | jint (n : Int)
  | jstr (s : String)
deriving DecidableEq, Repr

/-- A parsed JSON object / Python dict: an insertion-ordered association list. -/
abbrev Config := List (String × JVal)

/-- Python `d[k]` presence-aware lookup: `none` when the key is absent. -/
def dictGet : Config → String → Option JVal
  | [], _ => none
  | (k1, v1) :: rest, k => if k1 = k then some v1 else dictGet rest k

/-- Python `d[k] = v`: replace the value in place if the key exists, else append. -/
def dictSet : Config → String → JVal → Config
  | [], k, v => [(k, v)]
  | (k1, v1) :: rest, k, v =>
      if k1 = k then (k1, v) :: rest else (k1, v1) :: dictSet rest k v

/-- Python `d.update(other)`: assign every key/value pair of `other` in order. -/
def dictUpdate : Config → Config → Config
  | c, [] => c
  | c, (k, v) :: rest => dictUpdate (dictSet c k v) rest

/-- Python `d.get(k)`: `None` both when the key is absent and when it is stored
as JSON `null`. -/
def pyGet (c : Config) (k : String) : JVal :=
  (dictGet c k).getD .null

theorem dictGet_dictSet_self (c : Config) (k : String) (v : JVal) :
    dictGet (dictSet c k v) k = some v := by
  induction c with
  | nil => simp [dictSet, dictGet]
  | cons kv rest ih =>
      obtain ⟨k1, v1⟩ := kv
      by_cases h : k1 = k <;> simp [dictSet, dictGet, h, ih]

theorem dictGet_dictSet_ne (c : Config) (k k2 : String) (v : JVal) (h : k2 ≠ k) :
    dictGet (dictSet c k2 v) k = dictGet c k := by
  induction c with
  | nil => simp [dictSet, dictGet, h]
  | cons kv rest ih =>
      obtain ⟨k1, v1⟩ := kv
      by_cases h1 : k1 = k2 <;> simp [dictSet, dictGet, h1, h, ih]

theorem dictGet_dictUpdate_not_mem (other : Config) (c : Config) (k : String)
    (h : ∀ kv ∈ other, kv.1 ≠ k) :
    dictGet (dictUpdate c other) k = dictGet c k := by
  induction other generalizing c with
  | nil => rfl
  | cons kv rest ih =>
      obtain ⟨k1, v1⟩ := kv
      have hne : k1 ≠ k := h (k1, v1) (by simp)
      rw [dictUpdate, ih (dictSet c k1 v1) (fun kv hkv => h kv (by simp [hkv])),
        dictGet_dictSet_ne c k k1 v1 hne]

/-! ## `immediate_refresh_handler.py` — exponential backoff (C7)

`ImmediateRefreshHandler.__init__` sets `_min_global_interval = 2` and
`_max_backoff_interval = 300`. -/

def MIN_GLOBAL_INTERVAL : Nat := 2

def MAX_BACKOFF_INTERVAL : Nat := 300

/-- `ImmediateRefreshHandler._get_backoff_interval`, parametrised by the
instance attributes it reads. -/
def getBackoffInterval (min_global_interval max_backoff_interval consecutive_failures : Nat) : Nat :=
  if consecutive_failures = 0 then min_global_interval
  else min (min_global_interval * 2 ^ consecutive_failures) max_backoff_interval

/-- Effect of a successful refresh in `trigger_refresh._debounced_refresh` on
`_consecutive_failures`: the code resets the counter to `0` whenever it was
positive, and leaves it (at `0`) otherwise. -/
def refreshSuccessFailures (_consecutive_failures : Nat) : Nat := 0

/-- Effect of a failed refresh in `trigger_refresh._debounced_refresh` on
`_consecutive_failures` (`self._consecutive_failures += 1`). -/
def refreshFailureFailures (consecutive_failures : Nat) : Nat :=
  consecutive_failures + 1

/-! ## `__init__.py` — day/night classification (C9) -/

/-- `is_daytime`, with the current hour and the two configured hours as
arguments (the code reads `datetime.now().hour` and the configuration
getters). -/
def is_daytime (hour day_start night_start : Nat) : Bool :=
  if day_start = night_start then true
  else decide (day_start ≤ hour ∧ hour < night_start)

/-! ## `__init__.py` — smart polling intervals (C2) -/

/-- The `POLLING_INTERVALS` table: `(threshold, day_interval, night_interval)`. -/
def POLLING_INTERVALS : List (Nat × Nat × Nat) :=
  [(100, 30, 120), (1000, 15, 60), (5000, 10, 30), (20000, 5, 15)]

def DEFAULT_DAY_INTERVAL : Nat := 30

def DEFAULT_NIGHT_INTERVAL : Nat := 120

/-- The `for threshold, day_interval, night_interval in POLLING_INTERVALS`
loop of `get_polling_interval`: the first row with `limit ≤ threshold` wins,
`none` when the loop falls through. -/
def pollingTableLookup : List (Nat × Nat × Nat) → Nat → Bool → Option Nat
  | [], _, _ => none
  | (threshold, day_interval, night_interval) :: rest, lim, daytime =>
      if lim ≤ threshold then some (if daytime then day_interval else night_interval)
      else pollingTableLookup rest lim daytime

/-- The quota-based branch of `get_polling_interval`.  The effective limit is
`100` under Test Mode, else `cached_ratelimit.get("limit")` when a cached dict
was passed, else the `"limit"` of the rate-limit file when it exists.  Python
`if effective_limit:` is falsy both for `None` and for `0`, sending either to
the 30/120 defaults; a limit above every threshold takes `POLLING_INTERVALS[-1]`.
Quota values are naturals, matching the JSON ints the API reports; the
`except` path (file-read errors) also yields the defaults and is not
modelled separately. -/
def effectiveLimit (test_mode : Bool)
    (cached_ratelimit ratelimit_file : Option (Option Nat)) : Option Nat :=
  if test_mode then some 100
  else match cached_ratelimit with
    | some lim => lim
    | none => match ratelimit_file with
      | some lim => lim
      | none => none

def smartPollingInterval (daytime test_mode : Bool)
    (cached_ratelimit ratelimit_file : Option (Option Nat)) : Nat :=
  match effectiveLimit test_mode cached_ratelimit ratelimit_file with
  | some lim =>
      if lim = 0 then if daytime then DEFAULT_DAY_INTERVAL else DEFAULT_NIGHT_INTERVAL
      else
        match pollingTableLookup POLLING_INTERVALS lim daytime with
        | some interval => interval
        | none =>
            match POLLING_INTERVALS.getLast? with
            | some (_, day_interval, night_interval) =>
                if daytime then day_interval else night_interval
            | none => if daytime then DEFAULT_DAY_INTERVAL else DEFAULT_NIGHT_INTERVAL
  | none => if daytime then DEFAULT_DAY_INTERVAL else DEFAULT_NIGHT_INTERVAL

/-- `get_polling_interval`.  `daytime` is the `is_daytime` result for the
current hour; `custom_day`/`custom_night` are the configured custom intervals
(`none` when unset); `cached_ratelimit = some lim` models a cached rate-limit
dict whose `"limit"` entry is `lim`, and `ratelimit_file` likewise models the
on-disk fallback. -/
def get_polling_interval (daytime : Bool) (custom_day custom_night : Option Nat)
    (test_mode : Bool) (cached_ratelimit ratelimit_file : Option (Option Nat)) : Nat :=
  if daytime then
    match custom_day with
    | some interval => interval
    | none => smartPollingInterval daytime test_mode cached_ratelimit ratelimit_file
  else
    match custom_night with
    | some interval => interval
    | none => smartPollingInterval daytime test_mode cached_ratelimit ratelimit_file

/-- The claim's polling table, written from the spec's words: the first
threshold row with `q ≤ threshold` in
`[(100,30,120),(1000,15,60),(5000,10,30),(20000,5,15)]`, and the fastest tier
`(5,15)` for `q` above all thresholds. -/
def specPollingInterval (q : Nat) (daytime : Bool) : Nat :=
  if q ≤ 100 then if daytime then 30 else 120
  else if q ≤ 1000 then if daytime then 15 else 60
  else if q ≤ 5000 then if daytime then 10 else 30
  else if daytime then 5 else 15

/-- C2: with no custom interval configured, `get_polling_interval` follows the
spec's threshold table for every known quota `q` (whether the quota comes from
the cached dict or from the rate-limit file); under Test Mode the effective
quota is 100 regardless of the real quota; and with no quota information at
all it returns 30 (day) / 120 (night) minutes. -/
theorem smartPollingInterval_eq_spec (daytime : Bool) (q : Nat)
    (cached file : Option (Option Nat))
    (heff : effectiveLimit false cached file = some q) :
    smartPollingInterval daytime false cached file = specPollingInterval q daytime := by
  by_cases h0 : q = 0
  · subst h0
    simp [smartPollingInterval, specPollingInterval, heff,
      DEFAULT_DAY_INTERVAL, DEFAULT_NIGHT_INTERVAL]
  by_cases h1 : q ≤ 100
  · simp [smartPollingInterval, specPollingInterval, heff, h0, h1,
      pollingTableLookup, POLLING_INTERVALS]
  by_cases h2 : q ≤ 1000
  · simp [smartPollingInterval, specPollingInterval, heff, h0, h1, h2,
      pollingTableLookup, POLLING_INTERVALS]
  by_cases h3 : q ≤ 5000
  · simp [smartPollingInterval, specPollingInterval, heff, h0, h1, h2, h3,
      pollingTableLookup, POLLING_INTERVALS]
  by_cases h4 : q ≤ 20000
  · simp [smartPollingInterval, specPollingInterval, heff, h0, h1, h2, h3, h4,
      pollingTableLookup, POLLING_INTERVALS]
  · simp [smartPollingInterval, specPollingInterval, heff, h0, h1, h2, h3, h4,
      pollingTableLookup, POLLING_INTERVALS, List.getLast?]

theorem polling_interval_matches_spec_table (daytime : Bool) (q : Nat) :
    get_polling_interval daytime none none false (some (some q)) none =
      specPollingInterval q daytime ∧
    get_polling_interval daytime none none false none (some (some q)) =
      specPollingInterval q daytime ∧
    (∀ realq : Option Nat,
      get_polling_interval daytime none none true (some realq) (some realq) =
        specPollingInterval 100 daytime) ∧
    get_polling_interval daytime none none false none none =
      (if daytime then 30 else 120) ∧
    get_polling_interval daytime none none false (some none) none =
      (if daytime then 30 else 120) := by
  refine ⟨?_, ?_, ?_, ?_, ?_⟩
  · have h := smartPollingInterval_eq_spec daytime q (some (some q)) none rfl
    rcases daytime <;> simpa [get_polling_interval] using h
  · have h := smartPollingInterval_eq_spec daytime q none (some (some q)) rfl
    rcases daytime <;> simpa [get_polling_interval] using h
  · intro realq
    have h : smartPollingInterval daytime true (some realq) (some realq) =
        specPollingInterval 100 daytime := by
      rcases daytime <;>
        simp [smartPollingInterval, effectiveLimit, specPollingInterval,
          pollingTableLookup, POLLING_INTERVALS]
    rcases daytime <;> simpa [get_polling_interval] using h
  · rcases daytime <;>
      simp [get_polling_interval, smartPollingInterval, effectiveLimit,
        DEFAULT_DAY_INTERVAL, DEFAULT_NIGHT_INTERVAL]
  · rcases daytime <;>
      simp [get_polling_interval, smartPollingInterval, effectiveLimit,
        DEFAULT_DAY_INTERVAL, DEFAULT_NIGHT_INTERVAL]

/-! ## `__init__.py` — shared timer `HH:MM:SS` parser (C3)

`handle_set_climate_timer` and `handle_set_water_heater_timer` contain the
same string-parsing block (`str(time_period).split(":")`, `int(...)` on each
part, range checks, then the 5–1440 minute bound); it is embedded once.
Strings are handled at the character-list level so that every definition is
kernel-executable. -/

/-- Python `s.split(sep)` for a single-character separator (the handlers use
`split(":")`); `"".split(":")` is `[""]`. -/
def splitOnChar (sep : Char) : List Char → List (List Char)
  | [] => [[]]
  | c :: rest =>
      let parts := splitOnChar sep rest
      if c = sep then [] :: parts
      else match parts with
        | [] => [[c]]
        | p :: ps => (c :: p) :: ps

/-- Python `s.strip()` on a character list. -/
def stripChars (l : List Char) : List Char :=
  ((l.dropWhile Char.isWhitespace).reverse.dropWhile Char.isWhitespace).reverse

/-- Digit-string accumulator for `pyInt?`. -/
def parseDigitsAux : List Char → Nat → Option Nat
  | [], acc => some acc
  | c :: rest, acc =>
      if c.isDigit then parseDigitsAux rest (acc * 10 + (c.toNat - 48)) else none

/-- One-or-more decimal digits. -/
def parseDigits : List Char → Option Nat
  | [] => none
  | l => parseDigitsAux l 0

/-- Python `int(s)`: surrounding whitespace stripped, an optional sign, then
decimal digits; `none` models the `ValueError` the handlers catch.  (Python
additionally accepts underscore digit grouping, e.g. `1_0`; that nicety is
not modelled — none of the claims involve it.) -/
def pyInt? (s : List Char) : Option Int :=
  match stripChars s with
  | [] => none
  | c :: rest =>
      if c = '+' then (parseDigits rest).map (fun n => (n : Int))
      else if c = '-' then (parseDigits rest).map (fun n => -(n : Int))
      else (parseDigits (c :: rest)).map (fun n => (n : Int))

/-- The body of the handlers' `try` block after `split(":")`: exactly three
parts, each an integer, hours 0–24, minutes/seconds 0–59, duration
`hours * 60 + minutes + seconds // 60` bounded to 5–1440 minutes.  `Except`
errors model the raised `ValueError`s (re-raised as field-validation
`vol.Invalid`). -/
def parseTimeParts : List (List Char) → Except String Int
  | [hp, mp, sp] =>
      match pyInt? hp, pyInt? mp, pyInt? sp with
      | some hours, some minutes, some seconds =>
          if ¬(0 ≤ hours ∧ hours ≤ 24) then .error "Hours must be 0-24"
          else if ¬(0 ≤ minutes ∧ minutes ≤ 59) then .error "Minutes must be 0-59"
          else if ¬(0 ≤ seconds ∧ seconds ≤ 59) then .error "Seconds must be 0-59"
          else
            if hours * 60 + minutes + seconds / 60 < 5 then
              .error "Duration must be at least 5 minutes"
            else if hours * 60 + minutes + seconds / 60 > 1440 then
              .error "Duration must be at most 1440 minutes"
            else .ok (hours * 60 + minutes + seconds / 60)
      | _, _, _ => .error "invalid literal for int"
  | _ => .error "Invalid time_period format. Expected HH:MM:SS"

/-- The shared time-period → minutes parser on an `HH:MM:SS` string. -/
def parse_time_period (time_period : String) : Except String Int :=
  parseTimeParts (splitOnChar ':' time_period.data)

theorem parseTimeParts_ok_iff (parts : List (List Char)) (d : Int) :
    parseTimeParts parts = .ok d ↔
      ∃ hp mp sp h m sec, parts = [hp, mp, sp] ∧
        pyInt? hp = some h ∧ pyInt? mp = some m ∧ pyInt? sp = some sec ∧
        (0 ≤ h ∧ h ≤ 24) ∧ (0 ≤ m ∧ m ≤ 59) ∧ (0 ≤ sec ∧ sec ≤ 59) ∧
        5 ≤ h * 60 + m + sec / 60 ∧ h * 60 + m + sec / 60 ≤ 1440 ∧
        d = h * 60 + m + sec / 60 := by
  constructor
  · intro hok
    match parts with
    | [] => simp [parseTimeParts] at hok
    | [a] => simp [parseTimeParts] at hok
    | [a, b] => simp [parseTimeParts] at hok
    | a :: b :: c :: e :: rest => simp [parseTimeParts] at hok
    | [a, b, c] =>
        refine ⟨a, b, c, ?_⟩
        rcases hA : pyInt? a with _ | h <;> rw [parseTimeParts, hA] at hok
        · simp at hok
        rcases hB : pyInt? b with _ | m <;> rw [hB] at hok
        · simp at hok
        rcases hC : pyInt? c with _ | sec <;> rw [hC] at hok
        · simp at hok
        simp only at hok
        split_ifs at hok with h1 h2 h3 h4 h5
        rw [Except.ok.injEq] at hok
        exact ⟨h, m, sec, rfl, rfl, rfl, rfl, h1, h2, h3, by omega, by omega, hok.symm⟩
  · rintro ⟨hp, mp, sp, h, m, sec, rfl, hA, hB, hC, hH, hM, hS, hlo, hhi, rfl⟩
    rw [parseTimeParts, hA, hB, hC]
    simp only
    split_ifs with h1 h2 h3 h4 h5 <;> first
      | rfl
      | (exact absurd hH h1)
      | (exact absurd hM h2)
      | (exact absurd hS h3)
      | omega

/-- C3: an `HH:MM:SS` time-period string given to the climate-timer or
water-heater-timer action is accepted exactly when it has three
colon-separated integer parts with `0 ≤ H ≤ 24`, `0 ≤ M, S ≤ 59` and derived
minutes `H * 60 + M + S / 60` within 5–1440, in which case the result is
exactly that value (seconds below a minute are dropped); every other string is
rejected with a field-validation error.  In particular `"00:03:00"` (3
minutes) and `"25:00:00"` (hours > 24) are rejected, and `"01:30:00"` yields
exactly 90 minutes. -/
theorem time_period_parser_spec :
    (∀ s d, parse_time_period s = .ok d ↔
      ∃ hp mp sp h m sec, splitOnChar ':' s.data = [hp, mp, sp] ∧
        pyInt? hp = some h ∧ pyInt? mp = some m ∧ pyInt? sp = some sec ∧
        (0 ≤ h ∧ h ≤ 24) ∧ (0 ≤ m ∧ m ≤ 59) ∧ (0 ≤ sec ∧ sec ≤ 59) ∧
        5 ≤ h * 60 + m + sec / 60 ∧ h * 60 + m + sec / 60 ≤ 1440 ∧
        d = h * 60 + m + sec / 60) ∧
    parse_time_period "00:03:00" = .error "Duration must be at least 5 minutes" ∧
    parse_time_period "25:00:00" = .error "Hours must be 0-24" ∧
    parse_time_period "01:30:00" = .ok 90 := by
  refine ⟨fun s d => parseTimeParts_ok_iff (splitOnChar ':' s.data) d, rfl, rfl, rfl⟩

/-! ## `config_manager.py` — option sync and credential preservation (C1) -/

/-- The option values `ConfigurationManager.sync_all_to_config_json` collects
into `config_data`, one field per getter, typed as the getters return them
(booleans, bounded ints, and optional ints for the custom intervals).  The
claims quantify over every combination of these values, so no getter
validation logic is needed here. -/
structure OptionsData where
  weather_enabled : Bool
  mobile_devices_enabled : Bool
  mobile_devices_frequent_sync : Bool
  offset_enabled : Bool
  test_mode_enabled : Bool
  day_start_hour : Int
  night_start_hour : Int
  custom_day_interval : Option Int
  custom_night_interval : Option Int
  api_history_retention_days : Int
  hot_water_timer_duration : Int

/-- The `config_data` dict literal of `sync_all_to_config_json`. -/
def configData (o : OptionsData) : Config :=
  [("weather_enabled", .jbool o.weather_enabled),
   ("mobile_devices_enabled", .jbool o.mobile_devices_enabled),
   ("mobile_devices_frequent_sync", .jbool o.mobile_devices_frequent_sync),
   ("offset_enabled", .jbool o.offset_enabled),
   ("test_mode_enabled", .jbool o.test_mode_enabled),
   ("day_start_hour", .jint o.day_start_hour),
   ("night_start_hour", .jint o.night_start_hour),
   ("custom_day_interval", (o.custom_day_interval.map JVal.jint).getD .null),
   ("custom_night_interval", (o.custom_night_interval.map JVal.jint).getD .null),
   ("api_history_retention_days", .jint o.api_history_retention_days),
   ("hot_water_timer_duration", .jint o.hot_water_timer_duration)]

/-- The credential-restore step of `sync_all_to_config_json` for one of
`refresh_token` / `home_id`: `preserved` is the Python
`existing_config.get(key)` taken before the merge (so `JVal.null` both when
the key was absent and when it was stored as `null`); the value is re-assigned
when non-`None`, and the key is set to `null` only when it is absent from the
merged dict. -/
def restoreCred (c : Config) (key : String) (preserved : JVal) : Config :=
  if preserved ≠ .null then dictSet c key preserved
  else if (dictGet c key).isNone then dictSet c key .null
  else c

/-- `sync_all_to_config_json` on an already-parsed `existing_config`
(`CONFIG_FILE` present and valid; a missing or corrupt file enters the same
code path with `existing_config = {}`).  The atomic temp-file write, size
checks and error cleanup do not change the resulting JSON object and are not
modelled. -/
def sync_all_to_config_json (o : OptionsData) (existing_config : Config) : Config :=
  let preserved_refresh_token := pyGet existing_config "refresh_token"
  let preserved_home_id := pyGet existing_config "home_id"
  let merged := dictUpdate existing_config (configData o)
  let merged := restoreCred merged "refresh_token" preserved_refresh_token
  restoreCred merged "home_id" preserved_home_id

theorem configData_no_credential_keys (o : OptionsData) :
    (∀ kv ∈ configData o, kv.1 ≠ "refresh_token") ∧
    (∀ kv ∈ configData o, kv.1 ≠ "home_id") := by
  constructor <;> intro kv hkv <;>
    simp only [configData, List.mem_cons, List.mem_singleton] at hkv <;>
    rcases hkv with h | h | h | h | h | h | h | h | h | h | h | h <;>
    first
      | (subst h; simp)
      | simp at h

theorem dictGet_restoreCred_self (c : Config) (k : String) (p : JVal) :
    dictGet (restoreCred c k p) k =
      if p = .null then some ((dictGet c k).getD .null) else some p := by
  by_cases hp : p = .null
  · subst hp
    rcases hc : dictGet c k with _ | w <;>
      simp [restoreCred, hc, dictGet_dictSet_self]
  · simp [restoreCred, hp, dictGet_dictSet_self]

theorem dictGet_restoreCred_ne (c : Config) (k k2 : String) (p : JVal) (h : k ≠ k2) :
    dictGet (restoreCred c k p) k2 = dictGet c k2 := by
  unfold restoreCred
  split_ifs <;> simp [dictGet_dictSet_ne _ _ _ _ h]

/-- The refresh-token slot after a sync: always present, holding the prior
value when one was stored and `null` otherwise. -/
theorem sync_get_refresh_token (o : OptionsData) (existing_config : Config) :
    dictGet (sync_all_to_config_json o existing_config) "refresh_token" =
      some ((dictGet existing_config "refresh_token").getD .null) := by
  have hne : ("home_id" : String) ≠ "refresh_token" := by simp
  have hupd : dictGet (dictUpdate existing_config (configData o)) "refresh_token" =
      dictGet existing_config "refresh_token" :=
    dictGet_dictUpdate_not_mem _ _ _ (configData_no_credential_keys o).1
  rw [sync_all_to_config_json]
  rw [dictGet_restoreCred_ne _ _ _ _ hne, dictGet_restoreCred_self]
  rcases hc : dictGet existing_config "refresh_token" with _ | w
  · simp [pyGet, hc, hupd]
  · by_cases hw : w = .null <;> simp [pyGet, hc, hupd, hw]

/-- The home-id slot after a sync: always present, holding the prior value
when one was stored and `null` otherwise. -/
theorem sync_get_home_id (o : OptionsData) (existing_config : Config) :
    dictGet (sync_all_to_config_json o existing_config) "home_id" =
      some ((dictGet existing_config "home_id").getD .null) := by
  have hne : ("refresh_token" : String) ≠ "home_id" := by simp
  have hupd : dictGet (dictUpdate existing_config (configData o)) "home_id" =
      dictGet existing_config "home_id" :=
    dictGet_dictUpdate_not_mem _ _ _ (configData_no_credential_keys o).2
  rw [sync_all_to_config_json, dictGet_restoreCred_self,
    dictGet_restoreCred_ne _ _ _ _ hne, hupd]
  rcases hc : dictGet existing_config "home_id" with _ | w
  · simp [pyGet, hc]
  · by_cases hw : w = .null <;> simp [pyGet, hc, hw]

/-- C1: for every prior `config.json` content in which `refresh_token`
(respectively `home_id`) is present with a non-`null` value, and for every
combination of option values, `sync_all_to_config_json` leaves the stored
value unchanged; conversely a credential field comes out `null` only when it
was absent or already `null` before the sync, and an absent credential field
is written as `null`. -/
theorem sync_preserves_credentials (o : OptionsData) (existing_config : Config) (v : JVal) :
    (v ≠ .null → dictGet existing_config "refresh_token" = some v →
      dictGet (sync_all_to_config_json o existing_config) "refresh_token" = some v) ∧
    (v ≠ .null → dictGet existing_config "home_id" = some v →
      dictGet (sync_all_to_config_json o existing_config) "home_id" = some v) ∧
    (dictGet (sync_all_to_config_json o existing_config) "refresh_token" = some .null →
      dictGet existing_config "refresh_token" = none ∨
        dictGet existing_config "refresh_token" = some .null) ∧
    (dictGet (sync_all_to_config_json o existing_config) "home_id" = some .null →
      dictGet existing_config "home_id" = none ∨
        dictGet existing_config "home_id" = some .null) ∧
    (dictGet existing_config "refresh_token" = none →
      dictGet (sync_all_to_config_json o existing_config) "refresh_token" = some .null) ∧
    (dictGet existing_config "home_id" = none →
      dictGet (sync_all_to_config_json o existing_config) "home_id" = some .null) := by
  have hrt := sync_get_refresh_token o existing_config
  have hhi := sync_get_home_id o existing_config
  refine ⟨?_, ?_, ?_, ?_, ?_, ?_⟩
  · intro _ hex
    rw [hrt, hex]
    rfl
  · intro _ hex
    rw [hhi, hex]
    rfl
  · intro hres
    rw [hrt] at hres
    rcases hex : dictGet existing_config "refresh_token" with _ | w
    · exact Or.inl rfl
    · right
      rw [hex] at hres
      simpa using hres
  · intro hres
    rw [hhi] at hres
    rcases hex : dictGet existing_config "home_id" with _ | w
    · exact Or.inl rfl
    · right
      rw [hex] at hres
      simpa using hres
  · intro hex
    rw [hrt, hex]
    rfl
  · intro hex
    rw [hhi, hex]
    rfl

/-! ## `async_api.py` — endpoint classification and call tracking (C4)

Call-type constants from `api_call_tracker.py`. -/

def CALL_TYPE_ZONE_STATES : Nat := 1

def CALL_TYPE_WEATHER : Nat := 2

def CALL_TYPE_ZONES : Nat := 3

def CALL_TYPE_MOBILE_DEVICES : Nat := 4

def CALL_TYPE_OVERLAY : Nat := 5

def CALL_TYPE_PRESENCE_LOCK : Nat := 6

def CALL_TYPE_HOME_STATE : Nat := 7

/-- Python `pat in s` substring containment on character lists. -/
def containsSub (pat : List Char) : List Char → Bool
  | [] => pat.isPrefixOf []
  | c :: rest => pat.isPrefixOf (c :: rest) || containsSub pat rest

/-- Python `pat in endpoint` on strings. -/
def strContains (s pat : String) : Bool :=
  containsSub pat.data s.data

/-- `_detect_call_type` from `async_api.py`: classify an endpoint by substring,
`none` when no rule matches (Python `None`). -/
def _detect_call_type (endpoint : String) : Option Nat :=
  if strContains endpoint "zoneStates" then some CALL_TYPE_ZONE_STATES
  else if strContains endpoint "weather" then some CALL_TYPE_WEATHER
  else if strContains endpoint "zones" && !strContains endpoint "overlay"
      && !strContains endpoint "capabilities" then some CALL_TYPE_ZONES
  else if strContains endpoint "mobileDevices" then some CALL_TYPE_MOBILE_DEVICES
  else if strContains endpoint "overlay" then some CALL_TYPE_OVERLAY
  else if strContains endpoint "presenceLock" then some CALL_TYPE_PRESENCE_LOCK
  else if endpoint = "state" then some CALL_TYPE_HOME_STATE
  else none

/-- The tracking decision of `TadoAsyncClient.api_call`: each HTTP branch runs
`if tracker and call_type: await tracker.async_record_call(call_type, ...)`,
so a record (with the detected type) is appended exactly when the tracker
exists and `_detect_call_type` returned a code — every code is non-zero, so
Python truthiness of `call_type` is exactly non-`None`.  The result is the
call type recorded, `none` when nothing is recorded. -/
def api_call_tracked_type (tracker_present : Bool) (endpoint : String) : Option Nat :=
  if tracker_present then
    match _detect_call_type endpoint with
    | some call_type => some call_type
    | none => none
  else none

/-- Counterexample to C4 as stated: the per-zone capability endpoint
`"zones/1/capabilities"` is classified into none of the seven codes (the
`zones` rule explicitly excludes endpoints containing `capabilities`, and no
other rule matches), and no record is appended for it even with the tracker
present. -/
theorem capability_endpoint_not_classified :
    _detect_call_type "zones/1/capabilities" = none ∧
    api_call_tracked_type true "zones/1/capabilities" = none := by
  constructor <;> decide

/-- C4 (amended): every endpoint is classified into at most one of the seven
call-type codes 1–7; a record is appended, carrying exactly the detected
code, precisely when the tracker exists and a code was detected — endpoints
matching no substring rule (such as `"zones/1/capabilities"`) are classified
as `none` and never recorded.  Each of the seven rules yields its documented
code. -/
theorem detect_call_type_amended (endpoint : String) (tracker_present : Bool) :
    (∀ t, _detect_call_type endpoint = some t → 1 ≤ t ∧ t ≤ 7) ∧
    api_call_tracked_type tracker_present endpoint =
      (if tracker_present then _detect_call_type endpoint else none) ∧
    _detect_call_type "zoneStates" = some 1 ∧
    _detect_call_type "weather" = some 2 ∧
    _detect_call_type "zones" = some 3 ∧
    _detect_call_type "mobileDevices" = some 4 ∧
    _detect_call_type "zones/1/overlay" = some 5 ∧
    _detect_call_type "presenceLock" = some 6 ∧
    _detect_call_type "state" = some 7 := by
  refine ⟨?_, ?_, by decide, by decide, by decide, by decide, by decide, by decide, by decide⟩
  · intro t ht
    unfold _detect_call_type at ht
    split_ifs at ht <;>
      simp only [Option.some.injEq, CALL_TYPE_ZONE_STATES, CALL_TYPE_WEATHER,
        CALL_TYPE_ZONES, CALL_TYPE_MOBILE_DEVICES, CALL_TYPE_OVERLAY,
        CALL_TYPE_PRESENCE_LOCK, CALL_TYPE_HOME_STATE] at ht <;>
      omega
  · rcases tracker_present <;>
      [skip; rcases h : _detect_call_type endpoint with _ | t] <;>
      simp [api_call_tracked_type, *]

/-- Witness for the amended C4 at the `"zoneStates"` endpoint, whose detected
code 1 lies in 1–7. -/
theorem detect_call_type_amended_witness : 1 ≤ 1 ∧ 1 ≤ 7 :=
  (detect_call_type_amended "zoneStates" true).1 1 (by decide)

/-! ## `async_api.py` — rate-limit snapshot persistence (C5)

`TadoAsyncClient.save_ratelimit`.  UTC timestamps are modelled as integer
seconds (the file stores them as ISO strings; `datetime` arithmetic on them is
second-exact).  The float `percentage_used`, its derived `status`/display
strings and the file write itself are outside every claim and are not part of
the modelled output record. -/

/-- The `self._rate_limit` dict as left by `_parse_ratelimit_headers`:
each key present only when its header fragment parsed. -/
structure ParsedRateLimit where
  limit : Option Int
  remaining : Option Int
  reset_seconds : Option Int

/-- The previous snapshot loaded from the rate-limit file
(`prev_data.get("remaining")`, `prev_data.get("last_reset_utc")`). -/
structure PrevRateLimitData where
  remaining : Option Int
  last_reset_utc : Option Int

/-- The claim-relevant fields of the persisted snapshot dict. -/
structure SavedRateLimit where
  limit : Int
  remaining : Int
  used : Int
  reset_seconds : Option Int
  last_reset_utc : Option Int

/-- The reset-detection step of `save_ratelimit`: `remaining` has already been
defaulted to 5000, so the Python guard `remaining is not None` always holds;
a jump of more than 100 over the previous snapshot stamps `now_utc`. -/
def effectiveLastReset (now_utc : Int) (prev : PrevRateLimitData) (remaining : Int) :
    Option Int :=
  match prev.remaining with
  | some prev_remaining =>
      if remaining > prev_remaining + 100 then some now_utc else prev.last_reset_utc
  | none => prev.last_reset_utc

/-- `save_ratelimit`.  `history_estimate` abstracts Strategy 3 (the
call-history mode estimation, consulted only when Strategies 1 and 2 yield
nothing; in the code it only ever assigns a positive value or none).
Strategy 1 fires on `if reset_seconds and reset_seconds > 0`, which is
equivalent to `reset_seconds > 0`; Strategy 2 computes
`last_reset + 24h - now` and assigns it only when positive. -/
def save_ratelimit (now_utc : Int) (prev : PrevRateLimitData) (rl : ParsedRateLimit)
    (history_estimate : Option Int) : SavedRateLimit :=
  let limit := rl.limit.getD 5000
  let remaining := rl.remaining.getD 5000
  let reset_seconds := rl.reset_seconds.getD 0
  let used := limit - remaining
  let last_reset_utc := effectiveLastReset now_utc prev remaining
  let calculated_reset_seconds : Option Int :=
    if reset_seconds > 0 then some reset_seconds
    else match last_reset_utc with
      | some last_reset =>
          if last_reset + 86400 - now_utc > 0 then some (last_reset + 86400 - now_utc)
          else history_estimate
      | none => history_estimate
  let final_reset_seconds :=
    match calculated_reset_seconds with
    | some c => if c > 0 then c else reset_seconds
    | none => reset_seconds
  { limit := limit
    remaining := remaining
    used := used
    reset_seconds := if final_reset_seconds ≠ 0 then some final_reset_seconds else none
    last_reset_utc := last_reset_utc }

/-- C5: a snapshot whose `remaining` exceeds the previous snapshot's
`remaining` by more than 100 records the current timestamp as
`last_reset_utc`; and when the headers provide no positive `t=` value but a
last reset is known, the persisted `reset_seconds` is the time remaining until
`last_reset + 24h`, used only while that quantity is still positive. -/
theorem ratelimit_reset_detection_and_window (now_utc : Int) (prev : PrevRateLimitData)
    (rl : ParsedRateLimit) (est : Option Int) (p r lr : Int) :
    (prev.remaining = some p → rl.remaining = some r → r > p + 100 →
      (save_ratelimit now_utc prev rl est).last_reset_utc = some now_utc) ∧
    (rl.reset_seconds.getD 0 ≤ 0 →
      effectiveLastReset now_utc prev (rl.remaining.getD 5000) = some lr →
      ((0 < lr + 86400 - now_utc →
          (save_ratelimit now_utc prev rl est).reset_seconds =
            some (lr + 86400 - now_utc)) ∧
        (lr + 86400 - now_utc ≤ 0 → rl.reset_seconds = none →
          (save_ratelimit now_utc prev rl none).reset_seconds = none))) := by
  constructor
  · intro hp hr hjump
    simp only [save_ratelimit, effectiveLastReset, hp, hr, Option.getD_some]
    rw [if_pos hjump]
  · intro hts hlr
    constructor
    · intro hpos
      have h1 : ¬(rl.reset_seconds.getD 0 > 0) := by omega
      have h2 : lr + 86400 - now_utc > 0 := by omega
      simp only [save_ratelimit, hlr, if_neg h1, if_pos h2]
      simp [show lr + 86400 - now_utc ≠ 0 by omega, h2]
    · intro hnonpos hnone
      have h2 : ¬(lr + 86400 - now_utc > 0) := by omega
      simp only [save_ratelimit, hlr, hnone, Option.getD_none,
        if_neg (show ¬((0 : Int) > 0) by omega), if_neg h2]
      simp

/-- Witness for C5: the spec's example — `remaining` jumping from 50 to 4990
between consecutive snapshots with no `t=` header — stamps the second
snapshot's timestamp and persists a full 24-hour window. -/
theorem ratelimit_reset_detection_and_window_witness :
    (save_ratelimit 1000000 ⟨some 50, none⟩ ⟨some 5000, some 4990, none⟩ none).last_reset_utc =
      some 1000000 ∧
    (save_ratelimit 1000000 ⟨some 50, none⟩ ⟨some 5000, some 4990, none⟩ none).reset_seconds =
      some 86400 := by
  have h := ratelimit_reset_detection_and_window 1000000 ⟨some 50, none⟩
    ⟨some 5000, some 4990, none⟩ none 50 4990 1000000
  refine ⟨h.1 rfl rfl (by decide), ?_⟩
  have h2 := (h.2 (by decide) (by decide)).1 (by decide)
  simpa using h2

/-! ## `water_heater.py` — entity availability and operation mode (C6) -/

def STATE_AUTO : String := "auto"

def STATE_HEAT : String := "heat"

def STATE_OFF : String := "off"

/-- The fields of a hot-water zone's live-state record that
`TadoWaterHeater.update` touches, plus the zone's link/connectivity state
(`link.state`), which is part of the persisted zone-state data model but is
never read by `update`. -/
structure WHZoneState where
  power : Option String
  overlay : Option String
  overlayType : Option String
  link : Option String
deriving DecidableEq, Repr

/-- The entity attributes `update` writes. -/
structure WHUpdateResult where
  available : Bool
  current_operation : Option String
  overlay_type : Option String
deriving DecidableEq, Repr

/-- `TadoWaterHeater.update` on the zone's state record (`none` when
`zoneStates` has no record for the zone id — Python falsy `zone_data`; a
file-read exception also just sets unavailable).  When the record is missing,
the method returns early, leaving the previous operation and overlay type in
place. -/
def wh_update (prev_operation prev_overlay_type : Option String)
    (zone_data : Option WHZoneState) : WHUpdateResult :=
  match zone_data with
  | none =>
      { available := false
        current_operation := prev_operation
        overlay_type := prev_overlay_type }
  | some z =>
      let operation :=
        if z.overlay = none ∨ z.overlayType = none then STATE_AUTO
        else if z.overlayType = some "TIMER" then STATE_HEAT
        else if z.overlayType = some "MANUAL" then
          if z.power = some "OFF" then STATE_OFF else STATE_HEAT
        else STATE_AUTO
      { available := true
        current_operation := some operation
        overlay_type := z.overlayType }

/-- A present zone-state record whose link state is `OFFLINE`. -/
def offlineZoneExample : WHZoneState :=
  { power := some "ON", overlay := none, overlayType := none, link := some "OFFLINE" }

/-- Counterexample to C6 as stated: a hot-water zone whose state record is
present but whose link state is `OFFLINE` is still reported available —
`update` never consults any link/connectivity field. -/
theorem water_heater_offline_still_available :
    offlineZoneExample.link ≠ some "ONLINE" ∧
    (wh_update none none (some offlineZoneExample)).available = true := by
  exact ⟨by simp [offlineZoneExample], rfl⟩

/-- C6 (amended): the water-heater entity is reported available exactly when
the zone's live-state record is present; the zone's link/connectivity state
is not consulted at all (in particular availability is invariant under the
link field). -/
theorem water_heater_available_iff_record_present
    (prev_operation prev_overlay_type : Option String)
    (zone_data : Option WHZoneState) (z : WHZoneState) (lnk : Option String) :
    (wh_update prev_operation prev_overlay_type zone_data).available =
      zone_data.isSome ∧
    wh_update prev_operation prev_overlay_type
        (some { z with link := lnk }) =
      wh_update prev_operation prev_overlay_type (some z) := by
  constructor
  · cases zone_data <;> rfl
  · rfl

/-! ## `calendar.py` — schedule block to calendar event (C8, C10)

`TadoScheduleCalendar._block_to_event`.  Both computed datetimes fall on the
same target day, so they are modelled as seconds within that day; the target
date and time zone cancel out of every comparison the claims concern.
Temperatures appear only in the event summary; the `celsius` number is
modelled as an integer. -/

/-- A schedule block's `setting` dict: `power`, and the `temperature` sub-dict
(`none` when the key is absent; `some []` when present but empty — both are
Python-falsy). -/
structure BlockSetting where
  power : Option String
  temperature : Option (List (String × Int))
deriving DecidableEq, Repr

/-- A schedule block.  `stop` embeds the block's `end` key (`end` is a Lean
keyword); `none` fields model absent keys, defaulted by the code via
`block.get` with default `"00:00"` / an empty setting. -/
structure ScheduleBlock where
  start : Option String
  stop : Option String
  setting : BlockSetting
deriving DecidableEq, Repr

/-- A produced calendar event: start/end as seconds within the target day and
the summary temperature. -/
structure CalendarEvent where
  startSec : Int
  endSec : Int
  temp_c : Int
deriving DecidableEq, Repr

/-- `map(int, t.split(":"))` destructured into two variables: exactly two
colon-separated integer parts, `none` on the `ValueError` either step raises. -/
def parseHM (s : String) : Option (Int × Int) :=
  match splitOnChar ':' s.data with
  | [a, b] =>
      match pyInt? a, pyInt? b with
      | some h, some m => some (h, m)
      | _, _ => none
  | _ => none

/-- `_block_to_event` for one block on the target day.  `.error` models the
uncaught exception on an unparseable time string (reachable only for ON
blocks with a non-empty temperature, as in the code); `.ok none` is the
method's `return None`. -/
def _block_to_event (block : ScheduleBlock) : Except String (Option CalendarEvent) :=
  let start_time := block.start.getD "00:00"
  let end_time := block.stop.getD "00:00"
  let power := block.setting.power.getD "OFF"
  if power ≠ "ON" then .ok none
  else
    let temp := block.setting.temperature.getD []
    if temp = [] then .ok none
    else
      match parseHM start_time, parseHM end_time with
      | some (start_h, start_m), some (end_h, end_m) =>
          let start_dt := start_h * 3600 + start_m * 60
          let end_dt :=
            if end_time = "00:00" ∧ start_time ≠ "00:00" then 23 * 3600 + 59 * 60 + 59
            else end_h * 3600 + end_m * 60
          if start_dt ≥ end_dt then .ok none
          else .ok (some ⟨start_dt, end_dt, (temp.lookup "celsius").getD 0⟩)
      | _, _ => .error "unparseable time string"

/-- The spec's OFF example block. -/
def offBlockExample : ScheduleBlock :=
  { start := some "00:00", stop := some "00:00",
    setting := { power := some "OFF", temperature := none } }

/-- The spec's ON example block running 06:00 → 00:00 at 20 °C. -/
def onBlockExample : ScheduleBlock :=
  { start := some "06:00", stop := some "00:00",
    setting := { power := some "ON", temperature := some [("celsius", 20)] } }

/-- C8: a block whose setting power is not `ON` produces no event; an event
produced from a block ending `"00:00"` but starting elsewhere ends at
23:59:59 (second 86399) of the target day; every produced event starts
strictly before it ends; and the spec's two example blocks behave as stated
(no event for the OFF block, one 06:00 → 23:59:59 event at 20 °C for the ON
block). -/
theorem block_to_event_spec :
    (∀ b : ScheduleBlock, b.setting.power.getD "OFF" ≠ "ON" →
      _block_to_event b = .ok none) ∧
    (∀ (b : ScheduleBlock) (ev : CalendarEvent),
      _block_to_event b = .ok (some ev) →
      ((b.stop.getD "00:00" = "00:00" ∧ b.start.getD "00:00" ≠ "00:00") →
        ev.endSec = 23 * 3600 + 59 * 60 + 59) ∧
      ev.startSec < ev.endSec) ∧
    _block_to_event offBlockExample = .ok none ∧
    _block_to_event onBlockExample =
      .ok (some { startSec := 21600, endSec := 86399, temp_c := 20 }) := by
  refine ⟨?_, ?_, by rfl, by rfl⟩
  · intro b hpow
    simp [_block_to_event, hpow]
  · intro b ev hok
    simp only [_block_to_event] at hok
    by_cases hpow : b.setting.power.getD "OFF" ≠ "ON"
    · rw [if_pos hpow] at hok
      simp at hok
    rw [if_neg hpow] at hok
    by_cases htemp : b.setting.temperature.getD [] = []
    · rw [if_pos htemp] at hok
      simp at hok
    rw [if_neg htemp] at hok
    rcases hA : parseHM (b.start.getD "00:00") with _ | ⟨start_h, start_m⟩ <;>
      rw [hA] at hok
    · simp at hok
    rcases hB : parseHM (b.stop.getD "00:00") with _ | ⟨end_h, end_m⟩ <;>
      rw [hB] at hok
    · simp at hok
    simp only at hok
    by_cases hmid : b.stop.getD "00:00" = "00:00" ∧ b.start.getD "00:00" ≠ "00:00"
    · rw [if_pos hmid] at hok
      split_ifs at hok with hge
      · simp at hok
      · rw [Except.ok.injEq, Option.some.injEq] at hok
        subst hok
        refine ⟨fun _ => rfl, ?_⟩
        show start_h * 3600 + start_m * 60 < 23 * 3600 + 59 * 60 + 59
        omega
    · rw [if_neg hmid] at hok
      split_ifs at hok with hge
      · simp at hok
      · rw [Except.ok.injEq, Option.some.injEq] at hok
        subst hok
        refine ⟨fun hc => absurd hc hmid, ?_⟩
        show start_h * 3600 + start_m * 60 < end_h * 3600 + end_m * 60
        omega

/-- Witness for C8 at the spec's OFF block: its power is not `ON` and the
conversion yields no event. -/
theorem block_to_event_spec_witness :
    _block_to_event offBlockExample = .ok none :=
  block_to_event_spec.1 offBlockExample (by decide)

/-- C10: a block whose power is `ON` but whose setting has no (or an empty)
temperature dict produces no event — it is dropped before any time parsing. -/
theorem on_block_without_temperature_dropped (b : ScheduleBlock)
    (hpow : b.setting.power.getD "OFF" = "ON")
    (htemp : b.setting.temperature.getD [] = []) :
    _block_to_event b = .ok none := by
  simp [_block_to_event, hpow, htemp]

/-- Witness for C10: an ON block with an empty temperature dict yields no
event. -/
theorem on_block_without_temperature_dropped_witness :
    _block_to_event
        { start := some "06:00", stop := some "07:00",
          setting := { power := some "ON", temperature := some [] } } =
      .ok none :=
  on_block_without_temperature_dropped _ (by decide) (by decide)

/-- Concrete option values for the C1 witness. -/
def optionsExample : OptionsData :=
  { weather_enabled := true
    mobile_devices_enabled := false
    mobile_devices_frequent_sync := false
    offset_enabled := true
    test_mode_enabled := false
    day_start_hour := 7
    night_start_hour := 23
    custom_day_interval := none
    custom_night_interval := some 20
    api_history_retention_days := 30
    hot_water_timer_duration := 60 }

/-- A prior `config.json` with both credentials present and non-`null`. -/
def existingConfigExample : Config :=
  [("refresh_token", .jstr "tok123"), ("home_id", .jstr "98765"),
   ("weather_enabled", .jbool false)]

/-- Witness for C1: at concrete options and a concrete prior file the stored
credentials survive the sync unchanged. -/
theorem sync_preserves_credentials_witness :
    dictGet (sync_all_to_config_json optionsExample existingConfigExample) "refresh_token" =
      some (.jstr "tok123") ∧
    dictGet (sync_all_to_config_json optionsExample existingConfigExample) "home_id" =
      some (.jstr "98765") :=
  ⟨(sync_preserves_credentials optionsExample existingConfigExample (.jstr "tok123")).1
      (by simp) (by rfl),
    (sync_preserves_credentials optionsExample existingConfigExample (.jstr "98765")).2.1
      (by simp) (by rfl)⟩

/-- C9: with an overnight day window (`day_start_hour > night_start_hour`),
`is_daytime` returns `false` for every hour — the test
`day_start ≤ hour < night_start` has no wrap-around handling, so no hour is
ever classified as daytime. -/
theorem is_daytime_overnight_never_day (hour day_start night_start : Nat)
    (h : night_start < day_start) : is_daytime hour day_start night_start = false := by
  have hne : day_start ≠ night_start := by omega
  simp [is_daytime, hne]
  omega

/-- Witness for C9 at the spec's example configuration `day_start = 22`,
`night_start = 6`, checked at hour 10. -/
theorem is_daytime_overnight_never_day_witness :
    6 < 22 ∧ is_daytime 10 22 6 = false :=
  ⟨by decide, is_daytime_overnight_never_day 10 22 6 (by decide)⟩

/-- C7: for every failure count `k ≥ 1` the enforced minimum inter-refresh
interval is `min (base * 2 ^ k) 300` seconds, and a successful refresh resets
the counter to zero, after which the interval is the base value again. -/
theorem backoff_doubles_to_ceiling (base k : Nat) (h : 1 ≤ k) :
    getBackoffInterval base MAX_BACKOFF_INTERVAL k = min (base * 2 ^ k) 300 ∧
    refreshSuccessFailures k = 0 ∧
    getBackoffInterval base MAX_BACKOFF_INTERVAL (refreshSuccessFailures k) = base := by
  refine ⟨?_, rfl, rfl⟩
  have hk : k ≠ 0 := by omega
  simp [getBackoffInterval, MAX_BACKOFF_INTERVAL, hk]

/-- Witness for C7 at the code's base interval 2 and three consecutive
failures. -/
theorem backoff_doubles_to_ceiling_witness :
    1 ≤ 3 ∧
    (getBackoffInterval MIN_GLOBAL_INTERVAL MAX_BACKOFF_INTERVAL 3 = min (MIN_GLOBAL_INTERVAL * 2 ^ 3) 300 ∧
      refreshSuccessFailures 3 = 0 ∧
      getBackoffInterval MIN_GLOBAL_INTERVAL MAX_BACKOFF_INTERVAL (refreshSuccessFailures 3) = MIN_GLOBAL_INTERVAL) :=
  ⟨by decide, backoff_doubles_to_ceiling MIN_GLOBAL_INTERVAL 3 (by decide)⟩
